import Mathlib

/-!
# PSTL internal utilities (`pstl/include/pstl/internal/utils.h`)

A shallow embedding of the function objects of `__pstl::__internal` and of the
exception boundary `__except_handler`.

Calling a C++ callable can change state and can end in a thrown exception
instead of a value.  A call is therefore a state transformer `Comp σ α`: from
the state before the call it gives the value returned or the exception thrown,
together with the state after the call.  Value categories (`std::forward`) have
no counterpart in the embedding: an argument is the value it denotes.
-/

namespace Pstl

/-! ## Exceptions and calls -/

/-- Dynamic type of a thrown exception object.  `bad_array_new_length` is the
standard class derived from `std::bad_alloc`.  `other id badAllocBase` is any
type outside the ones listed, a user class or a thrown non-class value;
`badAllocBase` tells whether `std::bad_alloc` is an unambiguous public base
class of it, as for `struct my_oom : std::bad_alloc`. -/
inductive ExnClass where
  | bad_alloc
  | bad_array_new_length
  | logic_error
  | runtime_error
  | other (id : Nat) (badAllocBase : Bool)
deriving DecidableEq, Repr

/-- Whether a handler `catch (const ::std::bad_alloc&)` matches an exception of
this type: the type is `std::bad_alloc` or has it as an unambiguous public base
class. -/
def ExnClass.isBadAlloc : ExnClass → Bool
  | .bad_alloc => true
  | .bad_array_new_length => true
  | .logic_error => false
  | .runtime_error => false
  | .other _ badAllocBase => badAllocBase

/-- A thrown exception object: its dynamic class and the identity of the object. -/
structure Exn where
  cls : ExnClass
  obj : Nat
deriving DecidableEq, Repr

/-- Whether the handler for `std::bad_alloc` catches this exception object. -/
def Exn.isBadAlloc (e : Exn) : Bool := e.cls.isBadAlloc

/-- A call of a C++ callable over the state `σ`: the value returned (`ok`) or
the exception thrown (`error`), and the state the call leaves behind. -/
abbrev Comp (σ α : Type) : Type := σ → Except Exn α × σ

/-- A callable that has no side effect and never throws. -/
def pureCall {σ A R : Type} (f : A → R) : A → Comp σ R :=
  fun a s => (.ok (f a), s)

/-- How a call of `__except_handler` ends: it returns a value to its caller, it
lets an exception leave to its caller, or `std::terminate` ends the process. -/
inductive Outcome (α : Type) where
  | returned (v : α)
  | rethrown (e : Exn)
  | terminated
deriving DecidableEq, Repr

/-! ## `__except_handler` -/

/-- The exception boundary: `try { return __f(); }`, `catch (const
::std::bad_alloc&) { throw; }`, `catch (...) { ::std::terminate(); }`. -/
def __except_handler {σ α : Type} (__f : Comp σ α) : σ → Outcome α × σ :=
  fun s =>
    match __f s with
    | (.ok v, s1) => (.returned v, s1)
    | (.error e, s1) =>
      if e.isBadAlloc then (.rethrown e, s1) else (.terminated, s1)

/-! ## Predicate adaptors -/

/-- `__not_pred<_Pred>`: `operator()(__args...)` returns `!_M_pred(__args...)`.
The argument pack is one value of type `Args`. -/
def __not_pred {σ Args : Type} (_M_pred : Args → Comp σ Bool) (__args : Args) : Comp σ Bool :=
  fun s =>
    match _M_pred __args s with
    | (.ok r, s1) => (.ok (!r), s1)
    | (.error e, s1) => (.error e, s1)

/-- `__reorder_pred<_Pred>`: `operator()(__a, __b)` returns `_M_pred(__b, __a)`. -/
def __reorder_pred {σ FTp STp : Type} (_M_pred : STp → FTp → Comp σ Bool)
    (__a : FTp) (__b : STp) : Comp σ Bool :=
  _M_pred __b __a

/-- `__equal_value_by_pred<_Tp, _Predicate>`: `operator()(__arg)` returns
`_M_pred(__arg, _M_value)`. -/
def __equal_value_by_pred {σ Tp Arg : Type} (_M_value : Tp) (_M_pred : Arg → Tp → Comp σ Bool)
    (__arg : Arg) : Comp σ Bool :=
  _M_pred __arg _M_value

/-- `__equal_value<_Tp>`: `operator()(__arg)` returns `__arg == _M_value`.  The
native `==` of the value type is its `BEq` instance. -/
def __equal_value {Tp : Type} [BEq Tp] (_M_value : Tp) (__arg : Tp) : Bool :=
  __arg == _M_value

/-- `__not_equal_value<_Tp>`: `operator()(__arg)` returns `!(__arg == _M_value)`. -/
def __not_equal_value {Tp : Type} [BEq Tp] (_M_value : Tp) (__arg : Tp) : Bool :=
  !(__arg == _M_value)

/-! ## `__cmp_iterators_by_values` -/

/-- The selector of two iterators.  `deref` is `operator*` of the iterator type;
the two comparators are boolean functions of their arguments. -/
def __cmp_iterators_by_values {It V : Type} (deref : It → V) (__a __b : It)
    (__comp : V → V → Bool) (__comp_it : It → It → Bool) : It :=
  if __comp_it __a __b then
    -- we should return closer iterator
    if __comp (deref __b) (deref __a) then __b else __a
  else
    if __comp (deref __a) (deref __b) then __a else __b

/-! ## `__invoke_unary_op` and `__no_op` -/

/-- `__invoke_unary_op<_Op>`: `operator()(__x, __y)` does `__y = __op(__x)`.
The state of a call is the state of the stored `__op` together with the content
of the destination `__y`.  When `__op` throws, the assignment is not reached and
the destination keeps its content. -/
def __invoke_unary_op {σ Input Output : Type} (__op : Input → Comp σ Output) (__x : Input) :
    Comp (σ × Output) Unit :=
  fun st =>
    match __op __x st.1 with
    | (.ok r, s1) => (.ok (), (s1, r))
    | (.error e, s1) => (.error e, (s1, st.2))

/-- `__no_op`: `operator()(__a)` returns a reference to its argument. -/
def __no_op {Tp : Type} (__a : Tp) : Tp := __a

/-! ## Harness -/

/-- A binary callable that has no side effect and never throws. -/
def pureCall2 {σ A B R : Type} (f : A → B → R) : A → B → Comp σ R :=
  fun a b s => (.ok (f a b), s)

/-- A callable instrumented with a counter of its invocations: the counter is a
second component of the state and every invocation adds one to it. -/
def counted {σ α : Type} (f : Comp σ α) : Comp (σ × Nat) α :=
  fun st => ((f st.1).1, ((f st.1).2, st.2 + 1))

/-! ## Sample inputs -/

/-- A sequence of values; an iterator into it is a position. -/
def sampleSeq : List Nat := [5, 3, 5, 8]

/-- Dereference a position of `sampleSeq`. -/
def sampleDeref (i : Nat) : Nat := sampleSeq.getD i 0

/-- A task that counts its invocation in the state and throws `logic_error`. -/
def taskLogicError : Comp Nat Nat :=
  fun n => (.error { cls := .logic_error, obj := 7 }, n + 1)

/-- A task that counts its invocation in the state and throws `bad_alloc`. -/
def taskBadAlloc : Comp Nat Nat :=
  fun n => (.error { cls := .bad_alloc, obj := 3 }, n + 1)

/-- A task that counts its invocation in the state and throws an object of a
user class derived from `std::bad_alloc`. -/
def taskUserBadAlloc : Comp Nat Nat :=
  fun n => (.error { cls := .other 1 true, obj := 4 }, n + 1)

/-- A task that counts its invocation in the state and throws an object of a
user class that does not derive from `std::bad_alloc`. -/
def taskUserError : Comp Nat Nat :=
  fun n => (.error { cls := .other 2 false, obj := 5 }, n + 1)

/-- A value type whose `operator==` is not symmetric: `a == b` is
`a.val <= b.val`. -/
structure LeVal where
  val : Nat
deriving Repr

instance : BEq LeVal := ⟨fun a b => decide (a.val ≤ b.val)⟩

/-- A task that counts its invocation in the state and returns 42. -/
def taskValue : Comp Nat Nat :=
  fun n => (.ok 42, n + 1)

/-- A stateful predicate: tells whether its argument exceeds the number of
calls made so far, and counts the call. -/
def countingPred : Nat → Comp Nat Bool :=
  fun a n => (.ok (decide (n < a)), n + 1)

/-- A stateful unary operation: adds the number of calls made so far to its
argument, and counts the call. -/
def countingOp : Nat → Comp Nat Nat :=
  fun x n => (.ok (x + n), n + 1)

/-! ## Theorems -/

/-- A call of `__not_pred` on the stateful `countingPred`: the complemented
answer, and the call counted once. -/
theorem not_pred_countingPred : __not_pred countingPred 1 0 = (.ok false, 1) := rfl

/-- The two equality predicates compare with the call argument on the left:
when `arg == v` is false, `__equal_value(v)(arg)` is false and
`__not_equal_value(v)(arg)` is true. -/
theorem equal_value_of_arg_beq_false {Tp : Type} [BEq Tp] (v arg : Tp)
    (h : (arg == v) = false) :
    __equal_value v arg = false ∧ __not_equal_value v arg = true := by
  simp [__equal_value, __not_equal_value, h]

/-- C1: the selector follows the four-case rule.  When `comp_it(a, b)` holds it
returns `b` if `comp(*b, *a)` and `a` if not; when `comp_it(a, b)` does not hold
it returns `a` if `comp(*a, *b)` and `b` if not. -/
theorem cmp_iterators_four_cases {It V : Type} (deref : It → V) (a b : It)
    (comp : V → V → Bool) (comp_it : It → It → Bool) :
    (comp_it a b = true → comp (deref b) (deref a) = true →
        __cmp_iterators_by_values deref a b comp comp_it = b) ∧
    (comp_it a b = true → comp (deref b) (deref a) = false →
        __cmp_iterators_by_values deref a b comp comp_it = a) ∧
    (comp_it a b = false → comp (deref a) (deref b) = true →
        __cmp_iterators_by_values deref a b comp comp_it = a) ∧
    (comp_it a b = false → comp (deref a) (deref b) = false →
        __cmp_iterators_by_values deref a b comp comp_it = b) := by
  refine ⟨?_, ?_, ?_, ?_⟩ <;> intro h1 h2 <;> simp [__cmp_iterators_by_values, h1, h2]

/-- Witness for C1: each of the four cases at positions of `sampleSeq`. -/
theorem cmp_iterators_four_cases_witness :
    __cmp_iterators_by_values sampleDeref 0 1 (fun x y => decide (x < y))
        (fun i j => decide (i < j)) = 1 ∧
    __cmp_iterators_by_values sampleDeref 0 2 (fun x y => decide (x < y))
        (fun i j => decide (i < j)) = 0 ∧
    __cmp_iterators_by_values sampleDeref 1 0 (fun x y => decide (x < y))
        (fun i j => decide (i < j)) = 1 ∧
    __cmp_iterators_by_values sampleDeref 2 0 (fun x y => decide (x < y))
        (fun i j => decide (i < j)) = 0 :=
  ⟨(cmp_iterators_four_cases sampleDeref 0 1 _ _).1 (by decide) (by decide),
   (cmp_iterators_four_cases sampleDeref 0 2 _ _).2.1 (by decide) (by decide),
   (cmp_iterators_four_cases sampleDeref 1 0 _ _).2.2.1 (by decide) (by decide),
   (cmp_iterators_four_cases sampleDeref 2 0 _ _).2.2.2 (by decide) (by decide)⟩

/-- An object of a user class derived from `std::bad_alloc` is caught by the
handler for `std::bad_alloc` and rethrown. -/
theorem except_handler_user_bad_alloc :
    __except_handler taskUserBadAlloc 0 = (.rethrown { cls := .other 1 true, obj := 4 }, 1) :=
  rfl

/-- An object of a user class that does not derive from `std::bad_alloc` ends
the process. -/
theorem except_handler_user_error :
    __except_handler taskUserError 0 = (.terminated, 1) := rfl

/-- C2: when the callable throws an exception that the handler for
`std::bad_alloc` does not catch, `__except_handler` ends in `std::terminate`: it
returns no value and lets no exception out to its caller. -/
theorem except_handler_terminates {σ α : Type} (f : Comp σ α) (s s1 : σ) (e : Exn)
    (hf : f s = (.error e, s1)) (he : e.isBadAlloc = false) :
    __except_handler f s = (.terminated, s1) ∧
    (∀ v, (__except_handler f s).1 ≠ .returned v) ∧
    (∀ e1, (__except_handler f s).1 ≠ .rethrown e1) := by
  have h : __except_handler f s = (.terminated, s1) := by
    simp [__except_handler, hf, he]
  refine ⟨h, ?_, ?_⟩ <;> intro x <;> simp [h]

/-- Witness for C2: a task throwing `logic_error`. -/
theorem except_handler_terminates_witness :
    (taskLogicError 0 = (.error { cls := .logic_error, obj := 7 }, 1) ∧
      Exn.isBadAlloc { cls := .logic_error, obj := 7 } = false) ∧
    (__except_handler taskLogicError 0 = (.terminated, 1) ∧
      (∀ v, (__except_handler taskLogicError 0).1 ≠ .returned v) ∧
      (∀ e1, (__except_handler taskLogicError 0).1 ≠ .rethrown e1)) :=
  ⟨⟨rfl, rfl⟩, except_handler_terminates taskLogicError 0 1 _ rfl rfl⟩

/-- C3: when the callable throws an exception that the handler for
`std::bad_alloc` catches, `__except_handler` lets that same exception object out
to its caller: no value is returned, no other exception replaces it, and the
process is not terminated. -/
theorem except_handler_rethrows_bad_alloc {σ α : Type} (f : Comp σ α) (s s1 : σ) (e : Exn)
    (hf : f s = (.error e, s1)) (he : e.isBadAlloc = true) :
    __except_handler f s = (.rethrown e, s1) ∧
    (∀ v, (__except_handler f s).1 ≠ .returned v) ∧
    (∀ e1, e1 ≠ e → (__except_handler f s).1 ≠ .rethrown e1) ∧
    (__except_handler f s).1 ≠ .terminated := by
  have h : __except_handler f s = (.rethrown e, s1) := by
    simp [__except_handler, hf, he]
  refine ⟨h, ?_, ?_, ?_⟩
  · intro v
    simp [h]
  · intro e1 hne
    simp only [h, ne_eq, Outcome.rethrown.injEq]
    exact fun heq => hne heq.symm
  · simp [h]

/-- Witness for C3: a task throwing `bad_alloc`. -/
theorem except_handler_rethrows_bad_alloc_witness :
    (taskBadAlloc 0 = (.error { cls := .bad_alloc, obj := 3 }, 1) ∧
      Exn.isBadAlloc { cls := .bad_alloc, obj := 3 } = true) ∧
    (__except_handler taskBadAlloc 0 = (.rethrown { cls := .bad_alloc, obj := 3 }, 1) ∧
      (∀ v, (__except_handler taskBadAlloc 0).1 ≠ .returned v) ∧
      (∀ e1, e1 ≠ { cls := .bad_alloc, obj := 3 } →
        (__except_handler taskBadAlloc 0).1 ≠ .rethrown e1) ∧
      (__except_handler taskBadAlloc 0).1 ≠ .terminated) :=
  ⟨⟨rfl, rfl⟩, except_handler_rethrows_bad_alloc taskBadAlloc 0 1 _ rfl rfl⟩

/-- C4: when the callable completes with the result `r`, `__except_handler`
returns `r`: no exception leaves it and the process is not terminated. -/
theorem except_handler_returns_result {σ α : Type} (f : Comp σ α) (s s1 : σ) (r : α)
    (hf : f s = (.ok r, s1)) :
    __except_handler f s = (.returned r, s1) ∧
    (∀ e, (__except_handler f s).1 ≠ .rethrown e) ∧
    (__except_handler f s).1 ≠ .terminated := by
  have h : __except_handler f s = (.returned r, s1) := by
    simp [__except_handler, hf]
  refine ⟨h, ?_, ?_⟩
  · intro e
    simp [h]
  · simp [h]

/-- Witness for C4: a task returning 42. -/
theorem except_handler_returns_result_witness :
    taskValue 0 = (.ok 42, 1) ∧
    (__except_handler taskValue 0 = (.returned 42, 1) ∧
      (∀ e, (__except_handler taskValue 0).1 ≠ .rethrown e) ∧
      (__except_handler taskValue 0).1 ≠ .terminated) :=
  ⟨rfl, except_handler_returns_result taskValue 0 1 42 rfl⟩

/-- C5: a call of `__not_pred(P)` on the arguments `A` is the call `P(A)` with
the returned boolean complemented: same state afterwards, and an exception
thrown by `P` comes out as it is. -/
theorem not_pred_complement {σ Args : Type} (P : Args → Comp σ Bool) (A : Args) (s : σ) :
    __not_pred P A s = (Except.map (fun r => !r) (P A s).1, (P A s).2) := by
  unfold __not_pred
  rcases hP : P A s with ⟨r, s1⟩
  cases r <;> simp [Except.map]

/-- C6: a call of `__reorder_pred(P)` on `(a, b)` is the call `P(b, a)`. -/
theorem reorder_pred_swaps {σ FTp STp : Type} (P : STp → FTp → Comp σ Bool)
    (a : FTp) (b : STp) (s : σ) :
    __reorder_pred P a b s = P b a s := rfl

/-- C7: a call of `__equal_value_by_pred(v, pred)` on `arg` is the call
`pred(arg, v)`: the call argument first, the bound value second. -/
theorem equal_value_by_pred_order {σ Tp Arg : Type} (v : Tp) (pred : Arg → Tp → Comp σ Bool)
    (arg : Arg) (s : σ) :
    __equal_value_by_pred v pred arg s = pred arg v s := rfl

/-- C8: for a value `x` with `x == x`, `__equal_value(x)(x)` is true and
`__not_equal_value(x)(x)` is false. -/
theorem equal_value_self {Tp : Type} [BEq Tp] (x : Tp) (h : (x == x) = true) :
    __equal_value x x = true ∧ __not_equal_value x x = false := by
  simp [__equal_value, __not_equal_value, h]

/-- Witness for C8: the value 4. -/
theorem equal_value_self_witness :
    ((4 : Nat) == 4) = true ∧
    (__equal_value (4 : Nat) 4 = true ∧ __not_equal_value (4 : Nat) 4 = false) :=
  ⟨by decide, equal_value_self 4 (by decide)⟩

/-- With a native `==` that gives the same answer on `(x, y)` and on `(y, x)`,
`x != y` makes `__equal_value(x)(y)` false and `__not_equal_value(x)(y)` true. -/
theorem equal_value_distinct_of_symm {Tp : Type} [BEq Tp] (x y : Tp)
    (hsym : (x == y) = (y == x)) (h : (x != y) = true) :
    __equal_value x y = false ∧ __not_equal_value x y = true := by
  have hxy : (x == y) = false := by
    simpa [bne] using h
  exact equal_value_of_arg_beq_false x y (hsym ▸ hxy)

/-- Counterexample for C9: with the `operator==` of `LeVal` (`a == b` is
`a.val <= b.val`), `x = 5` and `y = 3` satisfy `x != y`, yet
`__equal_value(x)(y)`, which evaluates `y == x`, is true and
`__not_equal_value(x)(y)` is false. -/
theorem equal_value_distinct_counterexample :
    ((LeVal.mk 5 != LeVal.mk 3) = true) ∧
    __equal_value (LeVal.mk 5) (LeVal.mk 3) = true ∧
    __not_equal_value (LeVal.mk 5) (LeVal.mk 3) = false ∧
    ¬ (__equal_value (LeVal.mk 5) (LeVal.mk 3) = false ∧
        __not_equal_value (LeVal.mk 5) (LeVal.mk 3) = true) := by
  decide

/-- C9, amended: for values `x` and `y` with `y != x`, the call argument `y` on
the left of the native `==` and the bound value `x` on the right,
`__equal_value(x)(y)` is false and `__not_equal_value(x)(y)` is true. -/
theorem equal_value_arg_distinct {Tp : Type} [BEq Tp] (x y : Tp) (h : (y != x) = true) :
    __equal_value x y = false ∧ __not_equal_value x y = true := by
  have hyx : (y == x) = false := by
    simpa [bne] using h
  exact equal_value_of_arg_beq_false x y hyx

/-- Witness for C9, amended: bound value 3 and argument 5 under the `operator==`
of `LeVal`, where `5 != 3` holds. -/
theorem equal_value_arg_distinct_witness :
    ((LeVal.mk 5 != LeVal.mk 3) = true) ∧
    (__equal_value (LeVal.mk 3) (LeVal.mk 5) = false ∧
      __not_equal_value (LeVal.mk 3) (LeVal.mk 5) = true) :=
  ⟨by decide, equal_value_arg_distinct (LeVal.mk 3) (LeVal.mk 5) (by decide)⟩

/-- C10: `__not_equal_value(v)(arg)` is the complement of
`__equal_value(v)(arg)`, and `__not_equal_value(v)` agrees at every argument
with `__not_pred` built on `__equal_value(v)`. -/
theorem not_equal_value_complement {σ Tp : Type} [BEq Tp] (v arg : Tp) (s : σ) :
    __not_equal_value v arg = (!__equal_value v arg) ∧
    __not_pred (pureCall (__equal_value v)) arg s = pureCall (__not_equal_value v) arg s :=
  ⟨rfl, rfl⟩

/-- A second call of the same `__not_pred` instance on `countingPred` sees the
state left by the first call: the answer changes from false to true. -/
theorem not_pred_countingPred_second_call :
    __not_pred countingPred 1 (__not_pred countingPred 1 0).2 = (.ok true, 2) := rfl

/-- C11: `__no_op` applied to `v` returns `v`. -/
theorem no_op_identity {Tp : Type} (v : Tp) : __no_op v = v := rfl

/-- C12: when `op(x)` returns `r`, after `__invoke_unary_op{op}(x, y)` the
destination holds `r` whatever it held before, so its new content is the same
for any two previous contents. -/
theorem invoke_unary_op_assigns {σ Input Output : Type} (op : Input → Comp σ Output)
    (x : Input) (s s1 : σ) (r : Output) (hop : op x s = (.ok r, s1)) :
    (∀ y, __invoke_unary_op op x (s, y) = (.ok (), (s1, r))) ∧
    (∀ y1 y2, (__invoke_unary_op op x (s, y1)).2.2 = (__invoke_unary_op op x (s, y2)).2.2) := by
  have h : ∀ y, __invoke_unary_op op x (s, y) = (.ok (), (s1, r)) := by
    intro y
    simp [__invoke_unary_op, hop]
  exact ⟨h, fun y1 y2 => by rw [h y1, h y2]⟩

/-- Witness for C12: `countingOp` on the input 5 after two earlier calls. -/
theorem invoke_unary_op_assigns_witness :
    countingOp 5 2 = (.ok 7, 3) ∧
    ((∀ y, __invoke_unary_op countingOp 5 (2, y) = (.ok (), (3, 7))) ∧
      (∀ y1 y2, (__invoke_unary_op countingOp 5 (2, y1)).2.2
        = (__invoke_unary_op countingOp 5 (2, y2)).2.2)) :=
  ⟨rfl, invoke_unary_op_assigns countingOp 5 2 3 7 rfl⟩

/-- Counterexample for C14: with `comp_it(a, b)` false the result still
depends on the value comparator.  At positions 1 and 0 of `sampleSeq` (values 3
and 5) the selector returns position 1 under "less" and position 0 under
"greater". -/
theorem cmp_iterators_comp_ignored_counterexample :
    decide ((1 : Nat) < 0) = false ∧
    __cmp_iterators_by_values sampleDeref 1 0 (fun x y => decide (x < y))
        (fun i j => decide (i < j)) = 1 ∧
    __cmp_iterators_by_values sampleDeref 1 0 (fun x y => decide (y < x))
        (fun i j => decide (i < j)) = 0 ∧
    __cmp_iterators_by_values sampleDeref 1 0 (fun x y => decide (x < y))
        (fun i j => decide (i < j)) ≠
      __cmp_iterators_by_values sampleDeref 1 0 (fun x y => decide (y < x))
        (fun i j => decide (i < j)) := by
  decide

/-- C14, amended: when `comp_it(a, b)` is false the selector consults the value
comparator as `comp(*a, *b)`: it returns `a` if that holds and `b` if not, so two
value comparators that agree on `(*a, *b)` give the same result. -/
theorem cmp_iterators_else_branch {It V : Type} (deref : It → V) (a b : It)
    (comp1 comp2 : V → V → Bool) (comp_it : It → It → Bool) (hit : comp_it a b = false) :
    __cmp_iterators_by_values deref a b comp1 comp_it
        = (if comp1 (deref a) (deref b) then a else b) ∧
    (comp1 (deref a) (deref b) = comp2 (deref a) (deref b) →
      __cmp_iterators_by_values deref a b comp1 comp_it
        = __cmp_iterators_by_values deref a b comp2 comp_it) := by
  refine ⟨by simp [__cmp_iterators_by_values, hit], fun h => ?_⟩
  simp [__cmp_iterators_by_values, hit, h]

/-- Witness for C14, amended: "less" and "not equal" agree on the values 3 and 5. -/
theorem cmp_iterators_else_branch_witness :
    decide ((1 : Nat) < 0) = false ∧
    (__cmp_iterators_by_values sampleDeref 1 0 (fun x y => decide (x < y))
        (fun i j => decide (i < j))
        = (if decide (sampleDeref 1 < sampleDeref 0) then 1 else 0) ∧
      (decide (sampleDeref 1 < sampleDeref 0) = (sampleDeref 1 != sampleDeref 0) →
        __cmp_iterators_by_values sampleDeref 1 0 (fun x y => decide (x < y))
            (fun i j => decide (i < j))
          = __cmp_iterators_by_values sampleDeref 1 0 (fun x y => x != y)
            (fun i j => decide (i < j)))) :=
  ⟨by decide, cmp_iterators_else_branch sampleDeref 1 0 (fun x y => decide (x < y))
    (fun x y => x != y) (fun i j => decide (i < j)) (by decide)⟩

/-- C15: `__equal_value(v)(arg)` is `__equal_value_by_pred(v, ==)(arg)`, with
the call argument on the left of `==` and the bound value on the right. -/
theorem equal_value_as_by_pred {σ Tp : Type} [BEq Tp] (v arg : Tp) (s : σ) :
    pureCall (__equal_value v) arg s
        = __equal_value_by_pred v (pureCall2 (fun x y : Tp => x == y)) arg s ∧
    __equal_value v arg = (arg == v) :=
  ⟨rfl, rfl⟩

/-- C16: `__except_handler` invokes the callable once, whatever the outcome:
the invocation counter goes up by one, the state is the one a single invocation
leaves, and the outcome is that of the callable without the counter. -/
theorem except_handler_invokes_once {σ α : Type} (f : Comp σ α) (s : σ) (n : Nat) :
    (__except_handler (counted f) (s, n)).2 = ((f s).2, n + 1) ∧
    (__except_handler (counted f) (s, n)).1 = (__except_handler f s).1 := by
  unfold __except_handler counted
  rcases hf : f s with ⟨r, s1⟩
  cases r with
  | ok v => simp
  | error e => cases he : e.isBadAlloc <;> simp [he]

/-- C17: for an asymmetric value comparator the selector returns one of the two
iterators, and the value at the other one is not better: if the result is `a`
then `comp(*b, *a)` is false, if the result is `b` then `comp(*a, *b)` is false. -/
theorem cmp_iterators_value_minimal {It V : Type} (deref : It → V) (a b : It)
    (comp : V → V → Bool) (comp_it : It → It → Bool)
    (hasym : ∀ x y, comp x y = true → comp y x = false) :
    (__cmp_iterators_by_values deref a b comp comp_it = a ∨
      __cmp_iterators_by_values deref a b comp comp_it = b) ∧
    (__cmp_iterators_by_values deref a b comp comp_it = a →
      comp (deref b) (deref a) = false) ∧
    (__cmp_iterators_by_values deref a b comp comp_it = b →
      comp (deref a) (deref b) = false) := by
  have hirr : ∀ x, comp x x = false := by
    intro x
    cases h : comp x x with
    | false => rfl
    | true => exact h.symm.trans (hasym x x h)
  have k1 : a = b → comp (deref a) (deref b) = false := fun h => by rw [h]; exact hirr _
  have k3 : comp (deref a) (deref b) = true → comp (deref b) (deref a) = false := hasym _ _
  unfold __cmp_iterators_by_values
  cases h1 : comp_it a b <;> cases h2 : comp (deref b) (deref a) <;>
    cases h3 : comp (deref a) (deref b) <;> simp
  all_goals first
    | (intro h; have := k1 h; simp_all)
    | (intro h; have := k1 h.symm; simp_all)
    | exact absurd (h2.symm.trans (k3 h3)) (by decide)

/-- Witness for C17: "less" on the values of `sampleSeq`, positions 0 and 1. -/
theorem cmp_iterators_value_minimal_witness :
    (∀ x y : Nat, decide (x < y) = true → decide (y < x) = false) ∧
    ((__cmp_iterators_by_values sampleDeref 0 1 (fun x y => decide (x < y))
        (fun i j => decide (i < j)) = 0 ∨
      __cmp_iterators_by_values sampleDeref 0 1 (fun x y => decide (x < y))
        (fun i j => decide (i < j)) = 1) ∧
    (__cmp_iterators_by_values sampleDeref 0 1 (fun x y => decide (x < y))
        (fun i j => decide (i < j)) = 0 →
      decide (sampleDeref 1 < sampleDeref 0) = false) ∧
    (__cmp_iterators_by_values sampleDeref 0 1 (fun x y => decide (x < y))
        (fun i j => decide (i < j)) = 1 →
      decide (sampleDeref 0 < sampleDeref 1) = false)) :=
  have hlt : ∀ x y : Nat, decide (x < y) = true → decide (y < x) = false := by
    intro x y h
    simp only [decide_eq_true_eq, decide_eq_false_iff_not] at *
    omega
  ⟨hlt, cmp_iterators_value_minimal sampleDeref 0 1 (fun x y => decide (x < y))
    (fun i j => decide (i < j)) hlt⟩

/-- C18: for an asymmetric iterator-order comparator and two values equivalent
under `comp`, the selector returns `a` when `comp_it(a, b)` holds and `b` when
it does not, and the iterator that is not returned does not precede the returned
one under `comp_it`. -/
theorem cmp_iterators_tie_break {It V : Type} (deref : It → V) (a b : It)
    (comp : V → V → Bool) (comp_it : It → It → Bool)
    (hasym : ∀ i j, comp_it i j = true → comp_it j i = false)
    (hab : comp (deref a) (deref b) = false) (hba : comp (deref b) (deref a) = false) :
    (comp_it a b = true → __cmp_iterators_by_values deref a b comp comp_it = a) ∧
    (comp_it a b = false → __cmp_iterators_by_values deref a b comp comp_it = b) ∧
    (__cmp_iterators_by_values deref a b comp comp_it = a → comp_it b a = false) ∧
    (__cmp_iterators_by_values deref a b comp comp_it = b → comp_it a b = false) := by
  have hirr : ∀ i, comp_it i i = false := by
    intro i
    cases h : comp_it i i with
    | false => rfl
    | true => exact h.symm.trans (hasym i i h)
  unfold __cmp_iterators_by_values
  rw [hab, hba]
  cases h1 : comp_it a b with
  | true =>
    refine ⟨fun _ => by simp, fun h => by simp at h, fun _ => hasym a b h1, fun h => ?_⟩
    simp only [if_true, Bool.false_eq_true, if_false] at h
    rw [h] at h1
    exact h1.symm.trans (hirr b)
  | false =>
    refine ⟨fun h => by simp at h, fun _ => by simp, fun h => ?_, fun _ => rfl⟩
    simp only [Bool.false_eq_true, if_false] at h
    rw [h]
    exact hirr a

/-- Witness for C18: positions 0 and 2 of `sampleSeq` hold the same value. -/
theorem cmp_iterators_tie_break_witness :
    ((∀ i j : Nat, decide (i < j) = true → decide (j < i) = false) ∧
      decide (sampleDeref 0 < sampleDeref 2) = false ∧
      decide (sampleDeref 2 < sampleDeref 0) = false) ∧
    ((decide ((0 : Nat) < 2) = true →
        __cmp_iterators_by_values sampleDeref 0 2 (fun x y => decide (x < y))
          (fun i j => decide (i < j)) = 0) ∧
    (decide ((0 : Nat) < 2) = false →
        __cmp_iterators_by_values sampleDeref 0 2 (fun x y => decide (x < y))
          (fun i j => decide (i < j)) = 2) ∧
    (__cmp_iterators_by_values sampleDeref 0 2 (fun x y => decide (x < y))
        (fun i j => decide (i < j)) = 0 → decide ((2 : Nat) < 0) = false) ∧
    (__cmp_iterators_by_values sampleDeref 0 2 (fun x y => decide (x < y))
        (fun i j => decide (i < j)) = 2 → decide ((0 : Nat) < 2) = false)) :=
  have hlt : ∀ i j : Nat, decide (i < j) = true → decide (j < i) = false := by
    intro i j h
    simp only [decide_eq_true_eq, decide_eq_false_iff_not] at *
    omega
  ⟨⟨hlt, by decide, by decide⟩,
    cmp_iterators_tie_break sampleDeref 0 2 (fun x y => decide (x < y))
      (fun i j => decide (i < j)) hlt (by decide) (by decide)⟩

/-- C19: when exactly one of `comp_it(a, b)`, `comp_it(b, a)`, `a = b` holds, the
selector gives the same iterator for `(a, b)` and for `(b, a)`.  When `a` and `b`
are distinct, `comp_it` holds in neither order and the two values are equivalent
under `comp`, the call on `(a, b)` gives `b` and the call on `(b, a)` gives `a`. -/
theorem cmp_iterators_argument_order {It V : Type} (deref : It → V) (a b : It)
    (comp : V → V → Bool) (comp_it : It → It → Bool) :
    ((comp_it a b = true ∧ comp_it b a = false ∧ a ≠ b) ∨
      (comp_it a b = false ∧ comp_it b a = true ∧ a ≠ b) ∨
      (comp_it a b = false ∧ comp_it b a = false ∧ a = b) →
      __cmp_iterators_by_values deref a b comp comp_it
        = __cmp_iterators_by_values deref b a comp comp_it) ∧
    (a ≠ b → comp_it a b = false → comp_it b a = false →
      comp (deref a) (deref b) = false → comp (deref b) (deref a) = false →
      __cmp_iterators_by_values deref a b comp comp_it = b ∧
      __cmp_iterators_by_values deref b a comp comp_it = a ∧
      __cmp_iterators_by_values deref a b comp comp_it
        ≠ __cmp_iterators_by_values deref b a comp comp_it) := by
  constructor
  · rintro (⟨h1, h2, _⟩ | ⟨h1, h2, _⟩ | ⟨_, _, h3⟩)
    · simp [__cmp_iterators_by_values, h1, h2]
    · simp [__cmp_iterators_by_values, h1, h2]
    · rw [h3]
  · intro hne h1 h2 h3 h4
    have ha : __cmp_iterators_by_values deref a b comp comp_it = b := by
      simp [__cmp_iterators_by_values, h1, h3]
    have hb : __cmp_iterators_by_values deref b a comp comp_it = a := by
      simp [__cmp_iterators_by_values, h2, h4]
    exact ⟨ha, hb, by rw [ha, hb]; exact fun h => hne h.symm⟩

/-- Witness for C19: positions 0 and 1 of `sampleSeq` under the order of
positions, and positions 0 and 2 under an iterator comparator that never holds. -/
theorem cmp_iterators_argument_order_witness :
    ((decide ((0 : Nat) < 1) = true ∧ decide ((1 : Nat) < 0) = false ∧ (0 : Nat) ≠ 1) ∧
      __cmp_iterators_by_values sampleDeref 0 1 (fun x y => decide (x < y))
          (fun i j => decide (i < j))
        = __cmp_iterators_by_values sampleDeref 1 0 (fun x y => decide (x < y))
          (fun i j => decide (i < j))) ∧
    (((0 : Nat) ≠ 2 ∧ decide (sampleDeref 0 < sampleDeref 2) = false ∧
        decide (sampleDeref 2 < sampleDeref 0) = false) ∧
      (__cmp_iterators_by_values sampleDeref 0 2 (fun x y => decide (x < y))
          (fun _ _ => false) = 2 ∧
        __cmp_iterators_by_values sampleDeref 2 0 (fun x y => decide (x < y))
          (fun _ _ => false) = 0 ∧
        __cmp_iterators_by_values sampleDeref 0 2 (fun x y => decide (x < y))
            (fun _ _ => false)
          ≠ __cmp_iterators_by_values sampleDeref 2 0 (fun x y => decide (x < y))
            (fun _ _ => false))) :=
  ⟨⟨⟨by decide, by decide, by decide⟩,
      (cmp_iterators_argument_order sampleDeref 0 1 (fun x y => decide (x < y))
        (fun i j => decide (i < j))).1 (Or.inl ⟨by decide, by decide, by decide⟩)⟩,
    ⟨⟨by decide, by decide, by decide⟩,
      (cmp_iterators_argument_order sampleDeref 0 2 (fun x y => decide (x < y))
        (fun _ _ => false)).2 (by decide) rfl rfl (by decide) (by decide)⟩⟩

end Pstl
